import Mathlib

/-!
# Verification of the VPS operator agent's safety layer and orchestration loop

Shallow embedding of `src/tools.py` (command-safety validation, sandboxed
execution, confined file IO) and `src/orchestrator.py` (the iterative
conversation loop), together with theorems settling the frozen claims.

Conventions:
* Python strings are Lean `String`s; character scans work on `String.data`.
* Filesystem paths are modelled as lists of path components; `Path.resolve`
  is modelled as lexical normalization (no symlinks in the model).
* Process execution (`subprocess.run`) is an external effect, modelled by an
  `ExecOutcome` oracle passed to the embedded functions; a result that is
  independent of the oracle demonstrates that no process is spawned.
* A Python function that can raise an exception which its caller does not
  catch is embedded in `Except PyErr`; exceptions caught inside the source
  function are folded into its returned structured result, as in the source.
-/

namespace VpsAgent

/-- Decidable equality for `Except`, used to evaluate embedded functions on
concrete witnesses. -/
instance {ε α : Type} [DecidableEq ε] [DecidableEq α] : DecidableEq (Except ε α) :=
  fun a b =>
    match a, b with
    | .ok x, .ok y => if h : x = y then .isTrue (by rw [h]) else .isFalse (by simp [h])
    | .error x, .error y => if h : x = y then .isTrue (by rw [h]) else .isFalse (by simp [h])
    | .ok _, .error _ => .isFalse (by simp)
    | .error _, .ok _ => .isFalse (by simp)

/-! ## Character classes and basic string scans (Python semantics) -/

/-- The whitespace class used by Python `str.strip` / `str.split` and by the
`\s` regex class: space, tab, newline, carriage return, vertical tab, form feed. -/
def pyIsSpace (c : Char) : Bool :=
  c = ' ' || c = '\t' || c = '\n' || c = '\r' || c = '\x0b' || c = '\x0c'

/-- The (ASCII) word-character class of the `\w` regex class: `[A-Za-z0-9_]`. -/
def isWordChar (c : Char) : Bool :=
  ('a' ≤ c && c ≤ 'z') || ('A' ≤ c && c ≤ 'Z') || ('0' ≤ c && c ≤ '9') || c = '_'

/-- Lowercase ASCII letter test, for the `[a-z]` regex class. -/
def isLowerAlpha (c : Char) : Bool := 'a' ≤ c && c ≤ 'z'

/-- Python `str.strip()`: remove leading and trailing whitespace. -/
def pyStrip (s : String) : String :=
  String.mk (((s.data.dropWhile pyIsSpace).reverse.dropWhile pyIsSpace).reverse)

/-- Python `str.lower()` (ASCII commands only in this code base). -/
def pyLower (s : String) : String := String.mk (s.data.map Char.toLower)

/-- Split a character list at every separator character satisfying `p`,
keeping empty pieces (the behaviour of Python `str.split(sep)` for a
one-character separator, and of `re.split` on single characters). -/
def splitWhenAux (p : Char → Bool) : List Char → List Char → List String
  | [], cur => [String.mk cur.reverse]
  | c :: rest, cur =>
    if p c then String.mk cur.reverse :: splitWhenAux p rest []
    else splitWhenAux p rest (c :: cur)

/-- Split a string at every character satisfying `p`, keeping empty pieces. -/
def splitWhen (p : Char → Bool) (s : String) : List String :=
  splitWhenAux p s.data []

/-- Python `s.split('/')`. -/
def splitSlash (s : String) : List String := splitWhen (· = '/') s

/-- Python `str.split()` with no argument: split on whitespace runs,
discarding empty pieces. -/
def splitWs (s : String) : List String :=
  (splitWhen pyIsSpace s).filter (· ≠ "")

/-- Python `s.startswith(pre)`. -/
def strStartsWith (s pre : String) : Bool := pre.data.isPrefixOf s.data

/-- Substring test on character lists (Python `pat in s`). -/
def hasSubAux (pat : List Char) : List Char → Bool
  | [] => pat.isEmpty
  | c :: rest => pat.isPrefixOf (c :: rest) || hasSubAux pat rest

/-- Substring test on strings (Python `pat in s`). -/
def hasSubstr (s pat : String) : Bool := hasSubAux pat.data s.data

/-- Does the predicate hold at some suffix of the character list?  Used to
model `re.search`, which tries a pattern at every start position. -/
def anySuffix (p : List Char → Bool) : List Char → Bool
  | [] => p []
  | c :: rest => p (c :: rest) || anySuffix p rest

/-- Python `s[-n:]`: the trailing `n` characters of a string. -/
def pyTail (s : String) (n : Nat) : String :=
  if s.length ≤ n then s else String.mk (s.data.drop (s.length - n))

/-! ## `shlex.split` (POSIX mode, whitespace_split) -/

/-- Whitespace set of `shlex` (`shlex.whitespace = ' \t\r\n'`). -/
def shlexIsWs (c : Char) : Bool :=
  c = ' ' || c = '\t' || c = '\r' || c = '\n'

/-- Lexer modes of the POSIX `shlex` state machine. -/
inductive LexMode
  | normal
  | inSingle
  | inDouble
  | escNormal
  | escDouble
deriving DecidableEq

/-- Flush the current (possibly empty) token into the accumulator. -/
def lexFlush (cur : Option (List Char)) (acc : List String) : List String :=
  match cur with
  | some t => acc ++ [String.mk t]
  | none => acc

/-- One-pass POSIX `shlex` lexer: whitespace-separated tokens, single quotes
literal, double quotes with `\"`/`\\` escapes, backslash escapes outside
quotes.  Errors mirror the `ValueError` messages raised by `shlex`. -/
def shlexAux : List Char → LexMode → Option (List Char) → List String →
    Except String (List String)
  | [], mode, cur, acc =>
    match mode with
    | .normal => .ok (lexFlush cur acc)
    | .inSingle => .error "No closing quotation"
    | .inDouble => .error "No closing quotation"
    | .escNormal => .error "No escaped character"
    | .escDouble => .error "No escaped character"
  | c :: rest, mode, cur, acc =>
    match mode with
    | .normal =>
      if shlexIsWs c then shlexAux rest .normal none (lexFlush cur acc)
      else if c = '\'' then shlexAux rest .inSingle (some (cur.getD [])) acc
      else if c = '"' then shlexAux rest .inDouble (some (cur.getD [])) acc
      else if c = '\\' then shlexAux rest .escNormal (some (cur.getD [])) acc
      else shlexAux rest .normal (some (cur.getD [] ++ [c])) acc
    | .inSingle =>
      if c = '\'' then shlexAux rest .normal cur acc
      else shlexAux rest .inSingle (some (cur.getD [] ++ [c])) acc
    | .inDouble =>
      if c = '"' then shlexAux rest .normal cur acc
      else if c = '\\' then shlexAux rest .escDouble cur acc
      else shlexAux rest .inDouble (some (cur.getD [] ++ [c])) acc
    | .escNormal => shlexAux rest .normal (some (cur.getD [] ++ [c])) acc
    | .escDouble =>
      if c = '"' || c = '\\' then shlexAux rest .inDouble (some (cur.getD [] ++ [c])) acc
      else shlexAux rest .inDouble (some (cur.getD [] ++ ['\\', c])) acc

/-- `shlex.split(s)` in POSIX mode; `.error` models the `ValueError` it raises
on unbalanced quoting or a trailing escape. -/
def shlexSplit (s : String) : Except String (List String) :=
  shlexAux s.data .normal none []

/-! ## `tools.py`: blocklist, metacharacters, binary extraction -/

/-- `BLOCKED_BINARIES` from `tools.py`. -/
def BLOCKED_BINARIES : List String :=
  ["rm", "rmdir", "dd", "mkfs", "fdisk", "parted",
   "shutdown", "reboot", "poweroff", "halt",
   "iptables", "ip6tables", "ufw", "firewall-cmd",
   "passwd", "useradd", "userdel", "usermod", "groupadd",
   "chmod", "chown", "chgrp", "chattr",
   "mount", "umount", "systemctl", "service",
   "crontab", "at", "batch",
   "sudo", "su", "doas",
   "nc", "netcat", "socat", "telnet"]

/-- `SHELL_METACHARACTERS` from `tools.py`. -/
def SHELL_METACHARACTERS : List String :=
  ["|", ">", "<", ">>", "<<", "&", "&&", "||", ";", "$(", "\x60"]

/-- `_has_shell_metachars`: does the command contain any shell metacharacter? -/
def _has_shell_metachars (command : String) : Bool :=
  SHELL_METACHARACTERS.any (fun meta => hasSubstr command meta)

/-- Consume one `\w+=\S+\s+` group (a leading `KEY=value ` environment
assignment); `none` when the text does not start with such a group. -/
def parseEnvAssign (cs : List Char) : Option (List Char) :=
  match cs.span isWordChar with
  | ([], _) => none
  | (_, rest) =>
    match rest with
    | '=' :: rest2 =>
      match rest2.span (fun c => !pyIsSpace c) with
      | ([], _) => none
      | (_, rest3) =>
        match rest3.span pyIsSpace with
        | ([], _) => none
        | (_, rest4) => some rest4
    | _ => none

/-- Fuelled iteration of `parseEnvAssign` (each group consumes at least three
characters, so `cs.length` fuel always suffices). -/
def stripEnvAux : Nat → List Char → List Char
  | 0, cs => cs
  | n + 1, cs =>
    match parseEnvAssign cs with
    | some rest => stripEnvAux n rest
    | none => cs

/-- `re.sub(r'^(\w+=\S+\s+)+', '', cmd)`: strip leading environment-variable
assignments. -/
def stripEnvAssignments (cs : List Char) : List Char := stripEnvAux cs.length cs

/-- `pathlib.PurePath(binary).name`: the final path component ('`/`'-separated,
with empty and `.` components dropped). -/
def pathName (s : String) : String :=
  (((splitSlash s).filter (fun c => c ≠ "" && c ≠ ".")).getLast?).getD ""

/-- The body of `_extract_binary` after the initial `strip()` has been
applied to the command. -/
def extractBinaryCore (cmd : String) : Except String String :=
  let cmd := String.mk (stripEnvAssignments cmd.data)
  if _has_shell_metachars cmd then
    match splitWs cmd with
    | [] => .ok ""
    | b :: _ => .ok (pathName b)
  else
    match shlexSplit cmd with
    | .error e => .error e
    | .ok [] => .ok ""
    | .ok (b :: _) => .ok (pathName b)

/-- `_extract_binary`: the primary binary name of a command.  `.error` models
the `ValueError` that `shlex.split` can raise (caught by `run_shell`). -/
def _extract_binary (command : String) : Except String String :=
  extractBinaryCore (pyStrip command)

/-! ## `tools.py`: dangerous textual patterns (`_validate_command_safety`) -/

/-- `/dev/(sd|hd|nvme|vd)[a-z]` at the head of the text. -/
def devDiskAt (cs : List Char) : Bool :=
  ["/dev/sd", "/dev/hd", "/dev/nvme", "/dev/vd"].any fun p =>
    p.data.isPrefixOf cs &&
      (match cs.drop p.length with
       | c :: _ => isLowerAlpha c
       | [] => false)

/-- Greedy consumption of `(-[rf]*\s+)*` groups (flag groups of the
recursive-delete pattern), returning the remaining text. -/
def rmGroups : Nat → List Char → List Char
  | 0, cs => cs
  | n + 1, cs =>
    match cs with
    | '-' :: rest =>
      match (rest.dropWhile (fun c => c = 'r' || c = 'f')).span pyIsSpace with
      | ([], _) => cs
      | (_, rest3) => rmGroups n rest3
    | _ => cs

/-- `rm\s+(-[rf]*\s+)*/` at the head of the text. -/
def rmRootAt (cs : List Char) : Bool :=
  match cs with
  | 'r' :: 'm' :: rest =>
    match rest.span pyIsSpace with
    | ([], _) => false
    | (_, rest2) =>
      match rmGroups rest2.length rest2 with
      | '/' :: _ => true
      | _ => false
  | _ => false

/-- `:\(\)\s*\{` (fork-bomb signature) at the head of the text. -/
def forkBombAt (cs : List Char) : Bool :=
  match cs with
  | ':' :: '(' :: ')' :: rest =>
    match rest.dropWhile pyIsSpace with
    | c :: _ => c = '\x7b'
    | [] => false
  | _ => false

/-- `>\s*/dev/` (redirect into a device file) at the head of the text. -/
def devWriteAt (cs : List Char) : Bool :=
  match cs with
  | '>' :: rest => "/dev/".data.isPrefixOf (rest.dropWhile pyIsSpace)
  | _ => false

/-- The `dangerous_patterns` scan of `_validate_command_safety`, applied (in
source order) to the lowercased command; returns the reason of the first
matching pattern. -/
def dangerousReason (command : String) : Option String :=
  let l := (pyLower command).data
  if anySuffix devDiskAt l then some "Direct disk device access"
  else if anySuffix rmRootAt l then some "Recursive delete from root"
  else if anySuffix forkBombAt l then some "Fork bomb"
  else if hasSubstr (pyLower command) "mkfs" then some "Filesystem creation"
  else if anySuffix devWriteAt l then some "Writing to device files"
  else if hasSubstr (pyLower command) "/etc/passwd" ||
          hasSubstr (pyLower command) "/etc/shadow" ||
          hasSubstr (pyLower command) "/etc/sudoers" then
    some "Modifying critical system files"
  else none

/-! ## `tools.py`: absolute-path rule of `_validate_command_safety`

The regex `(?:^|\s)(/(?!usr/|bin/|lib/|opt/coding-agent/workspace)[^\s]+)`
matches whitespace-delimited tokens that start with `/`, have at least one
further non-whitespace character, and whose remainder after `/` does not start
with one of the look-ahead prefixes.  Because `[^\s]+` is greedy and a match
cannot span whitespace, `re.findall` returns exactly those tokens. -/

/-- The tokens of the command matched by the absolute-path regex. -/
def absPathMatches (command : String) : List String :=
  (splitWs command).filter fun t =>
    strStartsWith t "/" && t.length ≥ 2 &&
      !(strStartsWith t "/usr/" || strStartsWith t "/bin/" || strStartsWith t "/lib/" ||
        strStartsWith t "/opt/coding-agent/workspace")

/-- The first matched token that also fails the `startswith` allowlist checks
in the loop body (the token `_validate_command_safety` raises about). -/
def absPathOffender (command : String) : Option String :=
  (absPathMatches command).find? fun m =>
    !(strStartsWith m "/opt/coding-agent/workspace") &&
      !(strStartsWith m "/usr/" || strStartsWith m "/bin/" || strStartsWith m "/lib/")

/-- `_validate_command_safety`: `.error msg` models `raise ValueError(msg)`.
Checks run in source order: dangerous patterns, then the blocklisted-binary
check (where `_extract_binary` itself may raise), then absolute paths. -/
def _validate_command_safety (command : String) : Except String Unit :=
  match dangerousReason command with
  | some reason => .error ("Blocked: " ++ reason)
  | none =>
    match _extract_binary command with
    | .error e => .error e
    | .ok binary =>
      if binary ∈ BLOCKED_BINARIES then .error ("Blocked binary: " ++ binary)
      else
        match absPathOffender command with
        | some m => .error ("Absolute path outside workspace: " ++ m)
        | none => .ok ()

/-! ## Paths and the workspace root -/

/-- `WORKSPACE = Path("/opt/coding-agent/workspace")` as absolute components. -/
def WORKSPACE_COMPONENTS : List String := ["opt", "coding-agent", "workspace"]

/-- Render an absolute component path as a string (`str(p)`). -/
def renderPath (comps : List String) : String :=
  "/" ++ String.intercalate "/" comps

/-- One step of lexical path normalization. -/
def normStep (acc : List String) (c : String) : List String :=
  if c = "" || c = "." then acc
  else if c = ".." then acc.dropLast
  else acc ++ [c]

/-- Lexical normalization of an absolute component list, modelling
`Path.resolve()` (no symlinks in the model; `..` above the root is dropped,
as on POSIX). -/
def normalizeComponents (comps : List String) : List String :=
  comps.foldl normStep []

/-- `(WORKSPACE / p).resolve()`: absolute `p` replaces the workspace root
(`pathlib` join semantics), relative `p` is resolved beneath it. -/
def resolveUnder (p : String) : List String :=
  if strStartsWith p "/" then normalizeComponents (splitSlash p)
  else normalizeComponents (WORKSPACE_COMPONENTS ++ splitSlash p)

/-- `WORKSPACE in p.parents or p == WORKSPACE`: the complement of the guard
`WORKSPACE not in p.parents and p != WORKSPACE` used by `read_file`,
`write_file` and `_safe_cwd`. -/
def underWorkspace (p : List String) : Bool :=
  WORKSPACE_COMPONENTS.isPrefixOf p

/-! ## Filesystem model and `read_file` / `write_file`

The workspace filesystem is a map from resolved component paths to file
contents.  Directories are implicit: the workspace root itself is the only
modelled directory (reading it yields `not_a_file`, writing it fails), and a
path absent from the map reads as `not_found`.  Byte-level truncation of
reads models `p.read_bytes()[:max_bytes]` followed by a replacing UTF-8
decode. -/

def FS : Type := List String → Option String

/-- Result of `read_file`: the `content` dict or an `error` dict. -/
inductive ReadResult
  | content (path text : String)
  | err (path msg : String)
deriving DecidableEq

/-- Result of `write_file`: the `success: True` dict or the error dict. -/
inductive WriteResult
  | ok (path : String) (bytes : Nat)
  | err (path msg : String)
deriving DecidableEq

/-- Char-wise UTF-8 byte truncation: keeps the chars that fit wholly in
`maxBytes`; a char cut in the middle decodes (with `errors="replace"`) to a
replacement character. -/
def utf8TruncAux : List Char → Nat → String
  | [], _ => ""
  | c :: rest, n =>
    if c.utf8Size ≤ n then String.mk [c] ++ utf8TruncAux rest (n - c.utf8Size)
    else if n = 0 then "" else "�"

/-- `data.decode("utf-8", errors="replace")` applied to `bytes[:maxBytes]`
of the UTF-8 encoding of `s`. -/
def utf8Truncate (s : String) (maxBytes : Nat) : String :=
  if s.utf8ByteSize ≤ maxBytes then s else utf8TruncAux s.data maxBytes

/-- `read_file(path, max_bytes)` over the filesystem model. -/
def read_file (fs : FS) (path : String) (maxBytes : Nat := 200000) : ReadResult :=
  let p := resolveUnder path
  if ¬ underWorkspace p then .err path "path must be inside workspace"
  else if p = WORKSPACE_COMPONENTS then .err (renderPath p) "not_a_file"
  else
    match fs p with
    | none => .err (renderPath p) "not_found"
    | some c => .content (renderPath p) (utf8Truncate c maxBytes)

/-- `write_file(path, content)` over the filesystem model; returns the
structured result and the updated filesystem.  Writing the workspace root
itself models the `IsADirectoryError` caught by the source's `except`. -/
def write_file (fs : FS) (path content : String) : WriteResult × FS :=
  let p := resolveUnder path
  if ¬ underWorkspace p then (.err path "path must be inside workspace", fs)
  else if p = WORKSPACE_COMPONENTS then (.err path "Is a directory", fs)
  else (.ok (renderPath p) content.utf8ByteSize,
        fun q => if q = p then some content else fs q)

/-! ## `run_shell` and `run_python` -/

/-- Exceptions that escape an embedded function uncaught. -/
inductive PyErr
  | valueError (msg : String)
deriving DecidableEq

/-- Outcome of the external `subprocess.run` call (the process oracle). -/
inductive ExecOutcome
  | completed (returncode : Int) (stdout stderr : String)
  | timedOut
  | execError (msg : String)
deriving DecidableEq

/-- The result dict of `run_shell`.  `cwd`/`shellMode` are `none` for the
dict shapes that omit those keys. -/
structure ShellResult where
  returncode : Int
  stdout : String
  stderr : String
  command : String
  cwd : Option String
  shellMode : Option Bool
deriving DecidableEq

/-- Timeout clamping from `run_shell` / `run_python`:
`if not (1 <= timeout <= 600): timeout = min(max(timeout, 1), 600)`. -/
def effectiveTimeout (t : Int) : Int :=
  if 1 ≤ t ∧ t ≤ 600 then t else min (max t 1) 600

/-- `_safe_cwd`: resolve the optional cwd beneath the workspace root; raises
(`.error`) when it escapes.  A falsy cwd (absent or empty) is the root. -/
def _safe_cwd (cwd : Option String) : Except PyErr (List String) :=
  match cwd with
  | none => .ok WORKSPACE_COMPONENTS
  | some c =>
    if c = "" then .ok WORKSPACE_COMPONENTS
    else
      let p := resolveUnder c
      if underWorkspace p then .ok p
      else .error (.valueError "cwd must be inside workspace")

/-- The result dict built from the `subprocess.run` outcome (success,
`TimeoutExpired`, or a caught generic exception), for `run_shell`. -/
def shellExecResult (command : String) (p : List String) (useShell : Bool)
    (t : Int) (exec : ExecOutcome) : ShellResult :=
  match exec with
  | .completed rc out err =>
    ⟨rc, pyTail out 8000, pyTail err 8000, command, some (renderPath p), some useShell⟩
  | .timedOut =>
    ⟨124, "", "Command timed out after " ++ toString t ++ "s", command,
      some (renderPath p), none⟩
  | .execError msg =>
    ⟨127, "", "Execution error: " ++ msg, command, some (renderPath p), none⟩

/-- `run_shell(command, cwd, timeout)`.  The `Except` layer records that the
`ValueError` raised by `_safe_cwd` is *not* caught (the call sits outside
both `try` blocks in the source); every other failure is a structured dict. -/
def run_shell (command : String) (cwd : Option String) (timeout : Int)
    (exec : ExecOutcome) : Except PyErr ShellResult :=
  if command = "" ∨ pyStrip command = "" then
    .ok ⟨1, "", "Empty command", command, none, none⟩
  else
    let t := effectiveTimeout timeout
    match _validate_command_safety command with
    | .error e =>
      .ok ⟨126, "", "BLOCKED: " ++ e, command,
            some (renderPath WORKSPACE_COMPONENTS), none⟩
    | .ok _ =>
      match _safe_cwd cwd with
      | .error e => .error e
      | .ok p =>
        let useShell := _has_shell_metachars command
        if useShell then .ok (shellExecResult command p useShell t exec)
        else
          match shlexSplit command with
          | .error e =>
            .ok ⟨127, "", "Execution error: " ++ e, command, some (renderPath p), none⟩
          | .ok _ => .ok (shellExecResult command p useShell t exec)

/-- The result dict of `run_python`. -/
structure PyRunResult where
  returncode : Int
  stdout : String
  stderr : String
  file : String
deriving DecidableEq

/-- `run_python(code, filename, timeout)`: write the code beneath the
workspace (strict containment: `WORKSPACE not in p.parents` rejects the root
itself), then run it; all failures are caught into structured dicts. -/
def run_python (code filename : String) (timeout : Int) (fs : FS)
    (exec : ExecOutcome) : PyRunResult × FS :=
  let t := effectiveTimeout timeout
  let p := resolveUnder filename
  if ¬ (underWorkspace p ∧ p ≠ WORKSPACE_COMPONENTS) then
    (⟨127, "", "Error: filename must be inside workspace", renderPath p⟩, fs)
  else
    let fs' : FS := fun q => if q = p then some code else fs q
    match exec with
    | .completed rc out err =>
      (⟨rc, pyTail out 8000, pyTail err 8000, renderPath p⟩, fs')
    | .timedOut =>
      (⟨124, "", "Python execution timed out after " ++ toString t ++ "s",
         renderPath p⟩, fs')
    | .execError msg => (⟨127, "", "Error: " ++ msg, renderPath p⟩, fs')

/-! ## `orchestrator.py`: the conversation loop

The reasoning engine (`client.chat.completions.create`) is an oracle mapping
the conversation so far to `(content, finish_reason)`.  `json.loads` plus the
`action.get(...)` field extraction is an oracle `parse` producing an
`EngineAction` (with the source's defaults already applied) or `none` on a
`JSONDecodeError`.  `execute_command` and the feedback serialization
(`json.dumps`) are further oracles; none of the claims depend on their
internals. -/

/-- One conversation message. -/
structure Msg where
  role : String
  content : String
deriving DecidableEq

/-- `MAX_ITERATIONS` from `orchestrator.py`. -/
def MAX_ITERATIONS : Nat := 10

/-- The parsed single-JSON action: `status`/`reasoning`/`commands` with the
source's `.get` defaults already applied. -/
structure EngineAction where
  status : String
  reasoning : String
  commands : List String
deriving DecidableEq

/-- The result dict of `Orchestrator.execute_command`. -/
structure CmdResult where
  command : String
  returncode : Int
  stdout : String
  stderr : String
  success : Bool
deriving DecidableEq

/-- `get_complete_response`, fuelled by the remaining continuation attempts
(`attempts < max_continuation_attempts` with the default budget 5):
accumulate content; `finish_reason == "stop"` completes, `"length"` appends
the partial output plus a `Continue.` prompt and retries, anything else is
returned as-is. -/
def getCompleteAux (engine : List Msg → String × String) :
    Nat → List Msg → String → String × String
  | 0, _, acc => (acc, "max_continuations")
  | fuel + 1, msgs, acc =>
    let r := engine msgs
    let acc' := acc ++ r.1
    if r.2 = "stop" then (acc', "complete")
    else if r.2 = "length" then
      getCompleteAux engine fuel
        (msgs ++ [⟨"assistant", r.1⟩, ⟨"user", "Continue."⟩]) acc'
    else (acc', r.2)

/-- `get_complete_response(messages)` with the default budget of 5
continuation attempts. -/
def get_complete_response (engine : List Msg → String × String)
    (messages : List Msg) : String × String :=
  getCompleteAux engine 5 messages ""

/-- The markdown-fence stripping applied to the engine content before
`json.loads`. -/
def stripFences (content : String) : String :=
  let clean := pyStrip content
  if strStartsWith clean "```" then
    let lines := splitWhen (· = '\n') clean
    let lines :=
      match lines with
      | l :: rest => if strStartsWith l "```" then rest else lines
      | [] => lines
    let lines :=
      if lines ≠ [] && strStartsWith ((lines.getLast?).getD "") "```" then
        lines.dropLast
      else lines
    String.intercalate "\n" lines
  else clean

/-- The invalid-JSON nudge message appended on a parse failure. -/
def invalidJsonNudge : String :=
  "ERROR: You must respond with valid JSON only. No other text."

/-- Mutable state of the `run_task` iteration loop. -/
structure OrchState where
  messages : List Msg
  iteration : Nat
  status : Option String
  totalCommands : Nat
  failedCommands : Nat
deriving DecidableEq

/-- The body of the `for self.iteration in range(1, MAX_ITERATIONS + 1)` loop
of `run_task`, recursing on the remaining iterations.  Mirrors the source's
control flow: an `"error"` completion status breaks; a JSON parse failure
appends the assistant content plus `invalidJsonNudge` and `continue`s;
`complete`/`blocked` set the terminal status and break; otherwise the
commands run in order and the feedback message is appended. -/
def runIterations (engine : List Msg → String × String)
    (parse : String → Option EngineAction)
    (execCmd : String → CmdResult)
    (feedbackFn : Nat → List CmdResult → String) :
    Nat → OrchState → OrchState
  | 0, st => st
  | n + 1, st =>
    let st := { st with iteration := st.iteration + 1 }
    let r := get_complete_response engine st.messages
    if r.2 = "error" then st
    else
      match parse (stripFences r.1) with
      | none =>
        runIterations engine parse execCmd feedbackFn n
          { st with messages :=
              st.messages ++ [⟨"assistant", r.1⟩, ⟨"user", invalidJsonNudge⟩] }
      | some action =>
        if action.status = "complete" then { st with status := some "complete" }
        else if action.status = "blocked" then { st with status := some "blocked" }
        else
          let results := action.commands.map execCmd
          runIterations engine parse execCmd feedbackFn n
            { st with
                totalCommands := st.totalCommands + action.commands.length
                failedCommands :=
                  st.failedCommands + (results.filter (fun res => !res.success)).length
                messages :=
                  st.messages ++
                    [⟨"assistant", r.1⟩,
                     ⟨"user", feedbackFn st.iteration results⟩] }

/-- The finalized session record written at the end of `run_task`: terminal
status, counters, and counts of how many times the finalization steps
(deliverables copy, `session.json` write, `REPORT.md` write) ran. -/
structure SessionOutcome where
  iteration : Nat
  status : Option String
  totalCommands : Nat
  failedCommands : Nat
  messages : List Msg
  durationComputed : Bool
  deliverableScans : Nat
  recordWrites : Nat
  reportWrites : Nat
deriving DecidableEq

/-- `Orchestrator.run_task(task)`: run the iteration loop from the initial
system/task conversation, apply the max-iterations status fixup, then
finalize exactly once (duration, command counts, deliverables copy, session
record and report writes). -/
def run_task (engine : List Msg → String × String)
    (parse : String → Option EngineAction)
    (execCmd : String → CmdResult)
    (feedbackFn : Nat → List CmdResult → String)
    (systemPrompt task : String) : SessionOutcome :=
  let msgs0 : List Msg := [⟨"system", systemPrompt⟩, ⟨"user", "Task: " ++ task⟩]
  let st := runIterations engine parse execCmd feedbackFn MAX_ITERATIONS
    ⟨msgs0, 0, none, 0, 0⟩
  let status :=
    if st.iteration ≥ MAX_ITERATIONS ∧ st.status ≠ some "complete" then
      some "max_iterations"
    else st.status
  ⟨st.iteration, status, st.totalCommands, st.failedCommands, st.messages,
    true, 1, 1, 1⟩

/-- Count the user messages in a conversation carrying a given text. -/
def countUserMsgs (msgs : List Msg) (s : String) : Nat :=
  (msgs.filter (fun m => m.role = "user" && m.content = s)).length

/-- The message list reached after `k` continuation rounds on fragment list
`fs`: each round appends the partial output and a `Continue.` prompt, exactly
as `get_complete_response` does on a `"length"` finish reason. -/
def contMsgs (msgs0 : List Msg) (frags : List String) : Nat → List Msg
  | 0 => msgs0
  | k + 1 =>
    contMsgs msgs0 frags k ++ [⟨"assistant", frags.getD k ""⟩, ⟨"user", "Continue."⟩]

/-! ## Helper lemmas -/

/-- A command of pure whitespace strips to the empty string. -/
lemma pyStrip_of_all_space {s : String} (h : s.data.all pyIsSpace = true) :
    pyStrip s = "" := by
  unfold pyStrip
  have h1 : s.data.dropWhile pyIsSpace = [] :=
    List.dropWhile_eq_nil_iff.mpr (by simpa [List.all_eq_true] using h)
  rw [h1]
  rfl

/-- `_extract_binary` of a blank command is the empty binary name. -/
lemma extract_binary_blank {command : String} (h : pyStrip command = "") :
    _extract_binary command = .ok "" := by
  unfold _extract_binary
  rw [h]
  rfl

/-- A command whose extracted binary is blocklisted always fails validation
(either at the dangerous-pattern stage or at the blocklist stage). -/
lemma validate_error_of_blocked {command b : String}
    (hb : _extract_binary command = .ok b) (hbl : b ∈ BLOCKED_BINARIES) :
    ∃ e, _validate_command_safety command = .error e := by
  unfold _validate_command_safety
  cases hd : dangerousReason command with
  | some reason => exact ⟨"Blocked: " ++ reason, rfl⟩
  | none => exact ⟨"Blocked binary: " ++ b, by simp [hb, hbl]⟩

/-! ## C10: empty or whitespace-only commands -/

/-- **C10.**  For every command string that is empty or consists only of
whitespace, `run_shell` returns the structured result with returncode 1 and
stderr `Empty command`.  The result does not depend on the process oracle
`exec` (no process is spawned) and is produced by the early return before
`_validate_command_safety` runs. -/
theorem run_shell_empty_command (command : String) (cwd : Option String)
    (t : Int) (exec : ExecOutcome) (h : command.data.all pyIsSpace = true) :
    run_shell command cwd t exec = .ok ⟨1, "", "Empty command", command, none, none⟩ := by
  have hp : pyStrip command = "" := pyStrip_of_all_space h
  simp [run_shell, hp]

/-- Witness for C10: the two-space command, with an arbitrary oracle outcome. -/
theorem run_shell_empty_command_witness :
    ("  ".data.all pyIsSpace = true) ∧
    run_shell "  " none 60 .timedOut = .ok ⟨1, "", "Empty command", "  ", none, none⟩ :=
  ⟨by decide, run_shell_empty_command "  " none 60 .timedOut (by decide)⟩

/-! ## C1: blocklisted primary binaries are blocked before any spawn -/

/-- **C1.**  For every command whose primary binary name (as computed by
`_extract_binary`: leading `KEY=value` assignments stripped, path components
discarded) is in the fixed blocklist, `run_shell` returns the blocked result
with exit code 126 and a `BLOCKED:`-prefixed stderr; the result is the same
for any two process oracles, i.e. no process is spawned. -/
theorem run_shell_blocked_binary (command : String) (cwd : Option String)
    (t : Int) (exec exec' : ExecOutcome) (b : String)
    (hb : _extract_binary command = .ok b) (hbl : b ∈ BLOCKED_BINARIES) :
    (∃ msg, run_shell command cwd t exec =
      .ok ⟨126, "", "BLOCKED: " ++ msg, command,
            some (renderPath WORKSPACE_COMPONENTS), none⟩) ∧
    run_shell command cwd t exec = run_shell command cwd t exec' := by
  have hne : ¬ (command = "" ∨ pyStrip command = "") := by
    rintro (h | h)
    · rw [extract_binary_blank (by rw [h]; rfl)] at hb
      cases hb
      exact (by decide : "" ∉ BLOCKED_BINARIES) hbl
    · rw [extract_binary_blank h] at hb
      cases hb
      exact (by decide : "" ∉ BLOCKED_BINARIES) hbl
  obtain ⟨e, he⟩ := validate_error_of_blocked hb hbl
  constructor
  · exact ⟨e, by simp [run_shell, hne, he]⟩
  · simp [run_shell, hne, he]

/-- Witness for C1: `sudo ls` is blocked with exit code 126. -/
theorem run_shell_blocked_binary_witness :
    _extract_binary "sudo ls" = .ok "sudo" ∧ "sudo" ∈ BLOCKED_BINARIES ∧
    (∃ msg, run_shell "sudo ls" (some "sub") 60 (.completed 0 "" "") =
      .ok ⟨126, "", "BLOCKED: " ++ msg, "sudo ls",
            some (renderPath WORKSPACE_COMPONENTS), none⟩) :=
  ⟨by decide, by decide,
    (run_shell_blocked_binary "sudo ls" (some "sub") 60 (.completed 0 "" "")
      .timedOut "sudo" (by decide) (by decide)).1⟩

/-! ## C3: an out-of-workspace cwd raises an uncaught exception -/

/-- **C3 (code bug).**  A `cwd` that resolves outside the workspace root makes
`run_shell` raise the `ValueError` from `_safe_cwd` *uncaught* (the call at
`tools.py:117` sits outside both `try` blocks) instead of returning a
structured PathEscape result.  No process is spawned: the outcome is
independent of the process oracle, which is universally quantified here. -/
theorem run_shell_cwd_escape_uncaught (exec : ExecOutcome) :
    run_shell "echo hi" (some "../evil") 60 exec =
      .error (.valueError "cwd must be inside workspace") := rfl

/-! ## C2: `..` traversal is confined or rejected, never corrected -/

/-- **C2.**  For every candidate path containing a `..` traversal component,
resolution against the workspace root either stays at the root or a
descendant of it, or both `read_file` and `write_file` return the structured
path-escape error without touching the filesystem (the write leaves `fs`
unchanged); the resolved path is never silently replaced by one inside the
root. -/
theorem traversal_confined_or_rejected (fs : FS) (path content : String)
    (mb : Nat) (h : ".." ∈ splitSlash path) :
    underWorkspace (resolveUnder path) = true ∨
    (write_file fs path content = (.err path "path must be inside workspace", fs) ∧
     read_file fs path mb = .err path "path must be inside workspace") := by
  by_cases hu : underWorkspace (resolveUnder path) = true
  · exact .inl hu
  · refine .inr ⟨?_, ?_⟩
    · simp [write_file, hu]
    · simp [read_file, hu]

/-- Witness for C2: `../escape.txt` resolves outside the root and both file
operations reject it. -/
theorem traversal_confined_or_rejected_witness :
    (".." ∈ splitSlash "../escape.txt") ∧
    (underWorkspace (resolveUnder "../escape.txt") = true ∨
     (write_file (fun _ => none) "../escape.txt" "malicious" =
        (.err "../escape.txt" "path must be inside workspace", fun _ => none) ∧
      read_file (fun _ => none) "../escape.txt" 200000 =
        .err "../escape.txt" "path must be inside workspace")) :=
  ⟨by decide,
    traversal_confined_or_rejected (fun _ => none) "../escape.txt" "malicious"
      200000 (by decide)⟩

/-! ## C8: write-then-read roundtrip -/

/-- **C8.**  For every path resolving to a strict descendant of the workspace
root and every content whose UTF-8 byte length is at most the default read
limit, `write_file` succeeds and an immediate `read_file` of the same path
returns exactly that content. -/
theorem write_then_read_roundtrip (fs : FS) (path content : String)
    (h1 : underWorkspace (resolveUnder path) = true)
    (h2 : resolveUnder path ≠ WORKSPACE_COMPONENTS)
    (h3 : content.utf8ByteSize ≤ 200000) :
    (write_file fs path content).1 =
      .ok (renderPath (resolveUnder path)) content.utf8ByteSize ∧
    read_file (write_file fs path content).2 path =
      .content (renderPath (resolveUnder path)) content := by
  constructor
  · simp [write_file, h1, h2]
  · simp [read_file, write_file, h1, h2, utf8Truncate, h3]

/-- Witness for C8: `a.txt` / `hello` roundtrips on the empty filesystem. -/
theorem write_then_read_roundtrip_witness :
    (underWorkspace (resolveUnder "a.txt") = true) ∧
    (resolveUnder "a.txt" ≠ WORKSPACE_COMPONENTS) ∧
    ((write_file (fun _ => none) "a.txt" "hello").1 =
       .ok (renderPath (resolveUnder "a.txt")) "hello".utf8ByteSize ∧
     read_file (write_file (fun _ => none) "a.txt" "hello").2 "a.txt" =
       .content (renderPath (resolveUnder "a.txt")) "hello") :=
  ⟨by decide, by decide,
    write_then_read_roundtrip (fun _ => none) "a.txt" "hello"
      (by decide) (by decide) (by decide)⟩

/-! ## C9: the blocklist inspects only the first token -/

/-- **C9 counterexample.**  The claim as stated is false: `cat /data/x ; rm y`
contains shell metacharacters, its first token's basename `cat` is not
blocklisted, it matches no dangerous textual pattern, and a blocklisted
binary (`rm`) appears after the `;` separator — yet validation rejects it,
because of the absolute-path rule the claim omits. -/
theorem blocklist_first_token_counterexample :
    _has_shell_metachars "cat /data/x ; rm y" = true ∧
    _extract_binary "cat /data/x ; rm y" = .ok "cat" ∧
    "cat" ∉ BLOCKED_BINARIES ∧
    dangerousReason "cat /data/x ; rm y" = none ∧
    "rm" ∈ splitWs "cat /data/x ; rm y" ∧ "rm" ∈ BLOCKED_BINARIES ∧
    _validate_command_safety "cat /data/x ; rm y" =
      .error "Absolute path outside workspace: /data/x" := by
  refine ⟨by decide, by decide, by decide, by decide, by decide, by decide, by decide⟩

/-- **C9 (amended).**  For every command containing shell metacharacters whose
extracted primary binary is not blocklisted, which matches no dangerous
textual pattern, *and which references no absolute path outside the
allowlisted locations*, validation passes — even when a blocklisted binary
appears later in the string after a shell separator. -/
theorem blocklist_first_token_only (command b : String)
    (hs : _has_shell_metachars command = true)
    (hb : _extract_binary command = .ok b)
    (hnb : b ∉ BLOCKED_BINARIES)
    (hd : dangerousReason command = none)
    (hp : absPathOffender command = none) :
    _validate_command_safety command = .ok () := by
  simp [_validate_command_safety, hd, hb, hnb, hp]

/-- Witness for amended C9: `echo hi ; rm -rf subdir` passes validation even
though the blocklisted `rm` appears after the `;`. -/
theorem blocklist_first_token_only_witness :
    _has_shell_metachars "echo hi ; rm -rf subdir" = true ∧
    _extract_binary "echo hi ; rm -rf subdir" = .ok "echo" ∧
    "rm" ∈ splitWs "echo hi ; rm -rf subdir" ∧ "rm" ∈ BLOCKED_BINARIES ∧
    _validate_command_safety "echo hi ; rm -rf subdir" = .ok () :=
  ⟨by decide, by decide, by decide, by decide,
    blocklist_first_token_only "echo hi ; rm -rf subdir" "echo"
      (by decide) (by decide) (by decide) (by decide) (by decide)⟩

/-! ## C4: timeout clamping and the 124 timeout result -/

/-- **C4.**  The effective timeout of `run_shell` and `run_python` is always
clamped into `[1, 600]`; and whenever the timeout expires (the process oracle
reports `TimeoutExpired`), both return a result with exit code 124 and a
timeout message quoting the clamped timeout. -/
theorem timeout_clamped_and_reported :
    (∀ t : Int, 1 ≤ effectiveTimeout t ∧ effectiveTimeout t ≤ 600) ∧
    (∀ (command : String) (cwd : Option String) (t : Int) (p : List String),
      ¬ (command = "" ∨ pyStrip command = "") →
      _validate_command_safety command = .ok () →
      _safe_cwd cwd = .ok p →
      (_has_shell_metachars command = true ∨ ∃ args, shlexSplit command = .ok args) →
      run_shell command cwd t .timedOut =
        .ok ⟨124, "", "Command timed out after " ++ toString (effectiveTimeout t) ++ "s",
              command, some (renderPath p), none⟩) ∧
    (∀ (code filename : String) (t : Int) (fs : FS),
      underWorkspace (resolveUnder filename) = true →
      resolveUnder filename ≠ WORKSPACE_COMPONENTS →
      (run_python code filename t fs .timedOut).1 =
        ⟨124, "", "Python execution timed out after " ++ toString (effectiveTimeout t) ++ "s",
          renderPath (resolveUnder filename)⟩) := by
  refine ⟨?_, ?_, ?_⟩
  · intro t
    unfold effectiveTimeout
    split
    · omega
    · constructor
      · simp [min_def, max_def]
        split <;> split <;> omega
      · simp [min_def, max_def]
        split <;> omega
  · intro command cwd t p hne hv hc hsplit
    cases hs : _has_shell_metachars command with
    | true => simp [run_shell, hne, hv, hc, hs, shellExecResult]
    | false =>
      obtain ⟨args, ha⟩ : ∃ args, shlexSplit command = .ok args := by
        rcases hsplit with hsplit | hsplit
        · rw [hs] at hsplit; cases hsplit
        · exact hsplit
      simp [run_shell, hne, hv, hc, hs, ha, shellExecResult]
  · intro code filename t fs h1 h2
    simp [run_python, h1, h2]

/-- Witness for C4: a 700-second request clamps to 600 for `run_shell`, a
negative request clamps to 1 for `run_python`; both report 124 on expiry. -/
theorem timeout_clamped_and_reported_witness :
    (1 ≤ effectiveTimeout 700 ∧ effectiveTimeout 700 ≤ 600) ∧
    run_shell "sleep 5" none 700 .timedOut =
      .ok ⟨124, "", "Command timed out after 600s", "sleep 5",
            some "/opt/coding-agent/workspace", none⟩ ∧
    (run_python "print(1)" "a.py" (-3) (fun _ => none) .timedOut).1 =
      ⟨124, "", "Python execution timed out after 1s", "/opt/coding-agent/workspace/a.py"⟩ := by
  refine ⟨timeout_clamped_and_reported.1 700, ?_, ?_⟩
  · exact timeout_clamped_and_reported.2.1 "sleep 5" none 700 WORKSPACE_COMPONENTS
      (by decide) (by decide) (by decide) (.inr ⟨["sleep", "5"], by decide⟩)
  · exact timeout_clamped_and_reported.2.2 "print(1)" "a.py" (-3) (fun _ => none)
      (by decide) (by decide)

/-! ## Orchestrator helper lemmas -/

/-- A `"stop"` finish reason on the first call makes `get_complete_response`
return that single content, flagged complete. -/
lemma get_complete_response_stop (engine : List Msg → String × String)
    (msgs : List Msg) (h : (engine msgs).2 = "stop") :
    get_complete_response engine msgs = ((engine msgs).1, "complete") := by
  show getCompleteAux engine (4 + 1) msgs "" = _
  simp [getCompleteAux, h]

/-- `countUserMsgs` distributes over conversation append. -/
lemma countUserMsgs_append (a b : List Msg) (s : String) :
    countUserMsgs (a ++ b) s = countUserMsgs a s + countUserMsgs b s := by
  simp [countUserMsgs, List.filter_append]

/-- An assistant message plus a user message with the counted text counts
exactly once. -/
lemma countUserMsgs_pair (c s : String) :
    countUserMsgs [⟨"assistant", c⟩, ⟨"user", s⟩] s = 1 := by
  simp [countUserMsgs, List.filter]

/-- The initial conversation of `run_task` contains no invalid-JSON nudge. -/
lemma countUserMsgs_init (sys task : String) :
    countUserMsgs [⟨"system", sys⟩, ⟨"user", "Task: " ++ task⟩] invalidJsonNudge = 0 := by
  have hne : ("Task: " ++ task) ≠ invalidJsonNudge := by
    intro hEq
    have h2 : (("Task: " ++ task).data.head?) = some 'T' := rfl
    rw [hEq] at h2
    exact absurd h2 (by decide)
  simp [countUserMsgs, List.filter, hne]

/-! ## C5: an always-continue engine exhausts the iteration budget -/

/-- Loop invariant for an engine whose every turn parses as
`status = "continue"` with an empty command list: each iteration consumes one
budget unit and changes neither the terminal status nor the command
counters. -/
lemma runIterations_all_continue (engine : List Msg → String × String)
    (parse : String → Option EngineAction) (execCmd : String → CmdResult)
    (fb : Nat → List CmdResult → String)
    (h : ∀ msgs, (engine msgs).2 = "stop" ∧
      ∃ r, parse (stripFences (engine msgs).1) = some ⟨"continue", r, []⟩) :
    ∀ (n : Nat) (st : OrchState),
      (runIterations engine parse execCmd fb n st).iteration = st.iteration + n ∧
      (runIterations engine parse execCmd fb n st).status = st.status ∧
      (runIterations engine parse execCmd fb n st).totalCommands = st.totalCommands ∧
      (runIterations engine parse execCmd fb n st).failedCommands = st.failedCommands := by
  intro n
  induction n with
  | zero => intro st; simp [runIterations]
  | succ k ih =>
    intro st
    obtain ⟨hstop, r, hparse⟩ := h st.messages
    have hgc := get_complete_response_stop engine st.messages hstop
    simp only [runIterations, hgc, hparse]
    rw [if_neg (show ¬ (("continue" : String) = "complete") by decide),
        if_neg (show ¬ (("continue" : String) = "blocked") by decide)]
    refine ⟨(ih _).1.trans ?_, (ih _).2.1, (ih _).2.2.1, (ih _).2.2.2⟩
    show st.iteration + 1 + k = st.iteration + (k + 1)
    omega

/-- **C5.**  A session in which every engine turn parses as `continue` with an
empty command list and never signals completion runs for exactly
`MAX_ITERATIONS` iterations, ends with terminal status `max_iterations`, and
the finalization (duration, command-count aggregation, deliverables scan,
session-record and report writes) runs — exactly once, as it does for every
run of `run_task`. -/
theorem max_iterations_termination (engine : List Msg → String × String)
    (parse : String → Option EngineAction) (execCmd : String → CmdResult)
    (fb : Nat → List CmdResult → String) (sys task : String)
    (h : ∀ msgs, (engine msgs).2 = "stop" ∧
      ∃ r, parse (stripFences (engine msgs).1) = some ⟨"continue", r, []⟩) :
    ((run_task engine parse execCmd fb sys task).iteration = MAX_ITERATIONS ∧
     (run_task engine parse execCmd fb sys task).status = some "max_iterations" ∧
     (run_task engine parse execCmd fb sys task).totalCommands = 0) ∧
    (∀ (engine' : List Msg → String × String) (parse' : String → Option EngineAction)
       (execCmd' : String → CmdResult) (fb' : Nat → List CmdResult → String)
       (sys' task' : String),
      (run_task engine' parse' execCmd' fb' sys' task').durationComputed = true ∧
      (run_task engine' parse' execCmd' fb' sys' task').deliverableScans = 1 ∧
      (run_task engine' parse' execCmd' fb' sys' task').recordWrites = 1 ∧
      (run_task engine' parse' execCmd' fb' sys' task').reportWrites = 1) := by
  constructor
  · obtain ⟨h1, h2, h3, -⟩ := runIterations_all_continue engine parse execCmd fb h
      MAX_ITERATIONS ⟨[⟨"system", sys⟩, ⟨"user", "Task: " ++ task⟩], 0, none, 0, 0⟩
    refine ⟨?_, ?_, ?_⟩
    · simpa [run_task] using h1
    · simp [run_task, h1, h2]
    · simpa [run_task] using h3
  · intro engine' parse' execCmd' fb' sys' task'
    exact ⟨rfl, rfl, rfl, rfl⟩

/-- Always-`continue` engine used to witness C5. -/
def engineCont : List Msg → String × String := fun _ => ("CONT", "stop")

/-- Parser that reads `CONT` as the continue-with-no-commands action. -/
def parseCont : String → Option EngineAction :=
  fun s => if s = "CONT" then some ⟨"continue", "keep going", []⟩ else none

/-- Command oracle that reports success for every command. -/
def execOk : String → CmdResult := fun c => ⟨c, 0, "", "", true⟩

/-- Feedback serialization oracle (stands in for `json.dumps`). -/
def fbJson : Nat → List CmdResult → String :=
  fun i results => "Command results: " ++ toString i ++ "/" ++ toString results.length

/-- Witness for C5: the concrete always-continue session exhausts its budget. -/
theorem max_iterations_termination_witness :
    (run_task engineCont parseCont execOk fbJson "sys" "task").iteration = MAX_ITERATIONS ∧
    (run_task engineCont parseCont execOk fbJson "sys" "task").status = some "max_iterations" ∧
    (run_task engineCont parseCont execOk fbJson "sys" "task").totalCommands = 0 :=
  (max_iterations_termination engineCont parseCont execOk fbJson "sys" "task"
    (fun _ => ⟨rfl, "keep going", rfl⟩)).1

/-! ## C6: invalid JSON is nudged and retried each iteration, never fatal -/

/-- Engine that never produces JSON. -/
def engineBad : List Msg → String × String := fun _ => ("I cannot produce JSON.", "stop")

/-- Parser modelling `json.loads` failing on every engine output. -/
def parseFail : String → Option EngineAction := fun _ => none

/-- **C6 counterexample.**  With an engine whose output never parses as JSON,
the session is *not* aborted after a single retry of the failing turn: the
loop keeps nudging and consuming iterations until the budget is exhausted,
ending with status `max_iterations` after 10 iterations (10 nudges issued) —
there is no session-fatal ProtocolError after a repeated parse failure. -/
theorem parse_failure_not_fatal_counterexample :
    (run_task engineBad parseFail execOk fbJson "sys" "task").iteration = 10 ∧
    (run_task engineBad parseFail execOk fbJson "sys" "task").status =
      some "max_iterations" ∧
    countUserMsgs (run_task engineBad parseFail execOk fbJson "sys" "task").messages
      invalidJsonNudge = 10 := by
  refine ⟨by decide, by decide, by decide⟩

/-- Loop invariant for an engine whose output never parses: every iteration
appends one invalid-JSON nudge and consumes one budget unit, leaving the
status untouched. -/
lemma runIterations_parse_fail (engine : List Msg → String × String)
    (parse : String → Option EngineAction) (execCmd : String → CmdResult)
    (fb : Nat → List CmdResult → String)
    (h : ∀ msgs, (engine msgs).2 = "stop" ∧ parse (stripFences (engine msgs).1) = none) :
    ∀ (n : Nat) (st : OrchState),
      (runIterations engine parse execCmd fb n st).iteration = st.iteration + n ∧
      (runIterations engine parse execCmd fb n st).status = st.status ∧
      countUserMsgs (runIterations engine parse execCmd fb n st).messages invalidJsonNudge
        = countUserMsgs st.messages invalidJsonNudge + n := by
  intro n
  induction n with
  | zero => intro st; simp [runIterations]
  | succ k ih =>
    intro st
    obtain ⟨hstop, hparse⟩ := h st.messages
    have hgc := get_complete_response_stop engine st.messages hstop
    simp only [runIterations, hgc, hparse]
    refine ⟨(ih _).1.trans ?_, (ih _).2.1, (ih _).2.2.trans ?_⟩
    · show st.iteration + 1 + k = st.iteration + (k + 1)
      omega
    · show countUserMsgs (st.messages ++
        [⟨"assistant", (engine st.messages).1⟩, ⟨"user", invalidJsonNudge⟩])
          invalidJsonNudge + k = _
      rw [countUserMsgs_append, countUserMsgs_pair]
      omega

/-- **C6 (amended).**  A JSON parse failure appends the invalid-JSON nudge and
moves on to the *next* iteration (consuming one budget unit); repeated parse
failures are retried every iteration rather than escalated, so a session
whose engine never produces valid JSON ends after `MAX_ITERATIONS`
iterations with status `max_iterations` (and `MAX_ITERATIONS` nudges sent),
not with a session-fatal protocol error. -/
theorem parse_failure_retried_each_iteration (engine : List Msg → String × String)
    (parse : String → Option EngineAction) (execCmd : String → CmdResult)
    (fb : Nat → List CmdResult → String) (sys task : String)
    (h : ∀ msgs, (engine msgs).2 = "stop" ∧ parse (stripFences (engine msgs).1) = none) :
    (run_task engine parse execCmd fb sys task).iteration = MAX_ITERATIONS ∧
    (run_task engine parse execCmd fb sys task).status = some "max_iterations" ∧
    countUserMsgs (run_task engine parse execCmd fb sys task).messages invalidJsonNudge
      = MAX_ITERATIONS := by
  obtain ⟨h1, h2, h3⟩ := runIterations_parse_fail engine parse execCmd fb h
    MAX_ITERATIONS ⟨[⟨"system", sys⟩, ⟨"user", "Task: " ++ task⟩], 0, none, 0, 0⟩
  refine ⟨?_, ?_, ?_⟩
  · simpa [run_task] using h1
  · simp [run_task, h1, h2]
  · rw [show (run_task engine parse execCmd fb sys task).messages =
      (runIterations engine parse execCmd fb MAX_ITERATIONS
        ⟨[⟨"system", sys⟩, ⟨"user", "Task: " ++ task⟩], 0, none, 0, 0⟩).messages from rfl,
      h3, countUserMsgs_init]
    omega

/-- Witness for amended C6: the concrete never-JSON session. -/
theorem parse_failure_retried_each_iteration_witness :
    (run_task engineBad parseFail execOk fbJson "s" "t").iteration = MAX_ITERATIONS ∧
    (run_task engineBad parseFail execOk fbJson "s" "t").status = some "max_iterations" ∧
    countUserMsgs (run_task engineBad parseFail execOk fbJson "s" "t").messages
      invalidJsonNudge = MAX_ITERATIONS :=
  parse_failure_retried_each_iteration engineBad parseFail execOk fbJson "s" "t"
    (fun _ => ⟨rfl, rfl⟩)

/-! ## C7: truncated responses are reassembled to the baseline -/

/-- `take (j+1)` appends the `j`-th element (with default) to `take j`. -/
lemma take_succ_getD (l : List String) (j : Nat) (h : j < l.length) :
    l.take (j + 1) = l.take j ++ [l.getD j ""] := by
  induction l generalizing j with
  | nil => simp at h
  | cons x xs ih =>
    cases j with
    | zero => simp
    | succ j' => simp [ih j' (by simpa using h), List.getD_cons_succ]

/-- `String.join` peels off a final fragment. -/
lemma join_append_single (l : List String) (x : String) :
    String.join (l ++ [x]) = String.join l ++ x := by
  simp [String.join, List.foldl_append]

/-- Fuelled induction for C7: after `j` continuation rounds the loop holds the
concatenation of the first `j` fragments and the conversation `contMsgs j`;
it finishes with the full concatenation flagged complete. -/
lemma getCompleteAux_frags (engine : List Msg → String × String)
    (msgs0 : List Msg) (frags : List String) (hb : frags.length ≤ 5)
    (hfrag : ∀ k, k < frags.length →
      engine (contMsgs msgs0 frags k) =
        (frags.getD k "", if k + 1 = frags.length then "stop" else "length")) :
    ∀ (m j : Nat), j < frags.length → frags.length - j = m →
      getCompleteAux engine (5 - j) (contMsgs msgs0 frags j)
          (String.join (frags.take j)) =
        (String.join frags, "complete") := by
  intro m
  induction m with
  | zero => intro j hj hm; omega
  | succ i ih =>
    intro j hj hm
    have hfuel : 5 - j = (5 - (j + 1)) + 1 := by omega
    rw [hfuel]
    simp only [getCompleteAux]
    rw [hfrag j hj]
    by_cases hlast : j + 1 = frags.length
    · rw [if_pos hlast]
      simp only [if_pos rfl]
      have hjoin : String.join (frags.take j) ++ frags.getD j "" = String.join frags := by
        rw [← join_append_single, ← take_succ_getD frags j hj, hlast, List.take_length]
      rw [hjoin]
      simp
    · rw [if_neg hlast]
      rw [if_neg (show ¬ (("length" : String) = "stop") by decide)]
      rw [if_pos rfl]
      have hmsgs : contMsgs msgs0 frags j ++
          [⟨"assistant", frags.getD j ""⟩, ⟨"user", "Continue."⟩] =
          contMsgs msgs0 frags (j + 1) := rfl
      have hacc : String.join (frags.take j) ++ frags.getD j "" =
          String.join (frags.take (j + 1)) := by
        rw [← join_append_single, ← take_succ_getD frags j hj]
      rw [hmsgs, hacc]
      exact ih (j + 1) (by omega) (by omega)

/-- **C7.**  If the engine's answer arrives split into fragments — every
non-final fragment finishing with the `"length"` (truncated) signal, the
final one with `"stop"` — and the fragment count fits the continuation
budget, then `get_complete_response` issues the continuation requests
(appending each partial output and a `Continue.` prompt, as recorded by
`contMsgs`) and returns the concatenation of all fragments, which is
identical to what a baseline engine returning the same content untruncated
produces. -/
theorem truncation_reassembly (engine engineBase : List Msg → String × String)
    (msgs0 : List Msg) (frags : List String)
    (hn : 0 < frags.length) (hb : frags.length ≤ 5)
    (hfrag : ∀ k, k < frags.length →
      engine (contMsgs msgs0 frags k) =
        (frags.getD k "", if k + 1 = frags.length then "stop" else "length"))
    (hbase : engineBase msgs0 = (String.join frags, "stop")) :
    get_complete_response engine msgs0 = (String.join frags, "complete") ∧
    get_complete_response engineBase msgs0 = (String.join frags, "complete") := by
  constructor
  · have h0 := getCompleteAux_frags engine msgs0 frags hb hfrag (frags.length - 0) 0 hn rfl
    simpa [get_complete_response, contMsgs] using h0
  · have hstop : (engineBase msgs0).2 = "stop" := by rw [hbase]
    rw [get_complete_response_stop engineBase msgs0 hstop, hbase]

/-- Two-fragment engine used to witness C7: it answers `ab` (truncated) to
the initial conversation and `cd` (stop) to the continuation. -/
def engineFrag : List Msg → String × String :=
  fun msgs => if msgs.length = 0 then ("ab", "length") else ("cd", "stop")

/-- Baseline engine returning the same content in one piece. -/
def engineWhole : List Msg → String × String := fun _ => ("abcd", "stop")

/-- Witness for C7: the two-fragment split reassembles to the baseline. -/
theorem truncation_reassembly_witness :
    get_complete_response engineFrag [] = ("abcd", "complete") ∧
    get_complete_response engineWhole [] = ("abcd", "complete") :=
  truncation_reassembly engineFrag engineWhole [] ["ab", "cd"]
    (by decide) (by decide)
    (by
      intro k hk
      match k with
      | 0 => rfl
      | 1 => rfl
      | k + 2 => exact absurd hk (by simp))
    rfl

end VpsAgent
